import Mathlib

/-! Shallow embedding of the fullykiosk client library (file
`fullykiosk/__init__.py`): the REST command path (`sendCommand`,
`get_device_info`, `get_settings`), the broker parameter extraction and
reconnect loop of `FullyKiosk.start`, the MQTT session setup and teardown
order of `_start_mqtt_listener`, `cancel_tasks`, and the message
dispatcher `handle_messages`.

Decoded JSON documents are modelled as association lists of scalar
values (no claim touches a nested document).  Python exceptions are
modelled by `PyErr`, and fallible code returns `Except PyErr`.  Python
string primitives (`replace`, `split`, `int`, f-strings) are re-modelled
as structurally recursive functions over character lists so that every
definition evaluates by kernel reduction. -/

/-! ## Python string primitives -/

/-- Characters Python's `int(...)` and `str.strip` treat as whitespace
(the common ASCII ones; no input in the claims uses the exotic ones). -/
def isSpaceChar (c : Char) : Bool :=
  c = ' ' || c = '\t' || c = '\n' || c = '\r'

/-- Drop leading and trailing whitespace from a character list. -/
def trimChars (cs : List Char) : List Char :=
  ((cs.dropWhile isSpaceChar).reverse.dropWhile isSpaceChar).reverse

/-- Decimal digits to a number, `none` at the first non-digit. -/
def charsToNatAux : List Char → Nat → Option Nat
  | [], acc => some acc
  | c :: rest, acc =>
    if c.isDigit then charsToNatAux rest (acc * 10 + (c.toNat - 48))
    else none

/-- A non-empty all-digit character list to a number. -/
def charsToNat : List Char → Option Nat
  | [] => none
  | c :: rest => charsToNatAux (c :: rest) 0

/-- Python `int(s)` on a string: optional surrounding whitespace, an
optional sign, then decimal digits; `none` models the raised
`ValueError`.  (Digit-group underscores, which Python also accepts, are
not modelled; no input in the claims uses them.) -/
def pyInt (s : String) : Option Int :=
  match trimChars s.data with
  | '-' :: ds => (charsToNat ds).map (fun n => -(n : Int))
  | '+' :: ds => (charsToNat ds).map (fun n => (n : Int))
  | ds => (charsToNat ds).map (fun n => (n : Int))

/-- Replace every non-overlapping occurrence of `old` (non-empty) by
`new`, scanning left to right and never rescanning the replacement; the
fuel argument is the length of the scanned list, enough because every
step consumes at least one character. -/
def pyReplaceAux (old new : List Char) : Nat → List Char → List Char
  | _, [] => []
  | 0, s => s
  | fuel + 1, c :: rest =>
    if old ≠ [] ∧ old.isPrefixOf (c :: rest) then
      new ++ pyReplaceAux old new fuel ((c :: rest).drop old.length)
    else
      c :: pyReplaceAux old new fuel rest

/-- Python `s.replace(old, new)` for a non-empty `old`: every occurrence
of `old` anywhere in `s` is replaced. -/
def pyReplace (s old new : String) : String :=
  String.mk (pyReplaceAux old.data new.data s.data.length s.data)

/-- Helper for `pySplit`: `acc` holds the current segment reversed. -/
def splitAllAux (sep : Char) : List Char → List Char → List String
  | [], acc => [String.mk acc.reverse]
  | c :: rest, acc =>
    if c = sep then String.mk acc.reverse :: splitAllAux sep rest []
    else splitAllAux sep rest (c :: acc)

/-- Python `s.split(sep)` for a one-character separator: splits at every
occurrence, keeping empty segments (so `"".split(sep) = [""]`). -/
def pySplit (s : String) (sep : Char) : List String :=
  splitAllAux sep s.data []

/-- Helper for `pySplitOnce`: stop at the first separator. -/
def splitOnceAux (sep : Char) : List Char → List Char → List String
  | [], acc => [String.mk acc.reverse]
  | c :: rest, acc =>
    if c = sep then [String.mk acc.reverse, String.mk rest]
    else splitOnceAux sep rest (c :: acc)

/-- Python `s.split(sep, maxsplit=1)` for a one-character separator:
split at the first occurrence only. -/
def pySplitOnce (s : String) (sep : Char) : List String :=
  splitOnceAux sep s.data []

/-- Strip a leading occurrence of `p` from `s`, if present (used only by
the claim-worded variant of the broker resolver, not by the code model). -/
def stripLeading (s p : String) : String :=
  if p.data.isPrefixOf s.data then String.mk (s.data.drop p.data.length) else s

/-! ## JSON documents and Python errors -/

/-- Scalar JSON values as they appear in the decoded response documents
the library reads (no claim touches nested objects or arrays, so those
are not modelled). -/
inductive JVal where
  | str (s : String)
  | bool (b : Bool)
  | int (n : Int)
  | null
deriving DecidableEq, Repr

/-- A decoded JSON dictionary, such as a deviceInfo or settings response. -/
abbrev Doc := List (String × JVal)

/-- Python exceptions the embedded code can raise.  `fkError` is
`FullyKioskError(status_code, status)` from `fullykiosk/exceptions.py`;
`configError` is the spec's name for a malformed-broker-URL failure
(claim C2) and is produced only by the claim-worded definitions, never
by the code model; the rest are Python builtins. -/
inductive PyErr where
  | fkError (status_code : JVal) (status : JVal)
  | keyError (key : String)
  | indexError
  | valueError
  | jsonDecodeError
  | configError
deriving DecidableEq, Repr

deriving instance DecidableEq for Except

/-- Dictionary lookup `d[k]`, with `none` where Python raises `KeyError`. -/
def pyLookup (d : Doc) (k : String) : Option JVal :=
  match d with
  | [] => none
  | (k1, v) :: rest => if k1 = k then some v else pyLookup rest k

/-- Python truthiness of a scalar value, as tested by
`if self._mqtt_enabled and self._use_mqtt_if_available`. -/
def truthy : JVal → Bool
  | .str s => s.data ≠ []
  | .bool b => b
  | .int n => n ≠ 0
  | .null => false

/-- Python `str(v)` of a scalar value (as interpolated by an f-string). -/
def pyStr : JVal → String
  | .str s => s
  | .bool true => "True"
  | .bool false => "False"
  | .int n => toString n
  | .null => "None"

/-- Forgets which error a fallible computation failed with. -/
def resOk {α : Type} : Except PyErr α → Option α
  | .ok a => some a
  | .error _ => none

/-! ## The REST command path -/

/-- Module constant `RESPONSE_STATUS` (line 16). -/
def RESPONSE_STATUS : String := "status"

/-- Module constant `RESPONSE_STATUSTEXT` (line 17). -/
def RESPONSE_STATUSTEXT : String := "statustext"

/-- Module constant `RESPONSE_ERRORSTATUS` (line 18). -/
def RESPONSE_ERRORSTATUS : String := "Error"

/-- `FullyKiosk.sendCommand(cmd, **kwargs)` (lines 172-179), applied to
the decoded JSON document `data` the transport round trip returned for
this request (the HTTP exchange itself is outside the model; a non-200
response would already have raised inside `_RequestsHandler.get`).
Raises `FullyKioskError(RESPONSE_ERRORSTATUS, data[RESPONSE_STATUSTEXT])`
when the document carries a `status` field equal to `"Error"`, otherwise
returns the document unchanged.  The command name `cmd` is only
forwarded to the transport, never inspected here. -/
def sendCommand (cmd : String) (data : Doc) : Except PyErr Doc :=
  match pyLookup data RESPONSE_STATUS with
  | some v =>
    if v = JVal.str RESPONSE_ERRORSTATUS then
      match pyLookup data RESPONSE_STATUSTEXT with
      | some t => .error (.fkError (JVal.str RESPONSE_ERRORSTATUS) t)
      | none => .error (.keyError RESPONSE_STATUSTEXT)
    else .ok data
  | none => .ok data

/-- The mutable client state the claims touch: the `_RequestsHandler`
fields `host` and `port` and the cached `_device_info` and `_settings`
documents.  `host` is a `JVal` because Python assigns `result["ip4"]`
to it whatever that value is. -/
structure ClientState where
  host : JVal
  port : Int
  device_info : Option Doc
  settings : Option Doc
deriving DecidableEq, Repr

/-- The URL every `_RequestsHandler.get` request is sent to (line 289):
`f"http://{self.host}:{self.port}"`, built from the handler's current
`host` and `port` fields at request time. -/
def requestUrl (st : ClientState) : String :=
  "http://" ++ pyStr st.host ++ ":" ++ toString st.port

/-- `FullyKiosk.get_device_info` (lines 181-190), with `response` the
decoded document for the `deviceInfo` command: stores the result in
`_device_info`, then repoints the transport host at `result["ip4"]`
when that differs from the current host. -/
def get_device_info (st : ClientState) (response : Doc) :
    Except PyErr (ClientState × Doc) :=
  match sendCommand "deviceInfo" response with
  | .error e => .error e
  | .ok result =>
    match pyLookup result "ip4" with
    | none => .error (.keyError "ip4")
    | some ip =>
      if st.host ≠ ip then
        .ok ({ st with device_info := some result, host := ip }, result)
      else
        .ok ({ st with device_info := some result }, result)

/-- `FullyKiosk.get_settings` (lines 192-196): fetches `listSettings`
and stores the result in `_settings`. -/
def get_settings (st : ClientState) (response : Doc) :
    Except PyErr (ClientState × Doc) :=
  match sendCommand "listSettings" response with
  | .error e => .error e
  | .ok result => .ok ({ st with settings := some result }, result)

/-! ## Broker parameter resolution (FullyKiosk.start, lines 63-75) -/

/-- Broker host/port extraction exactly as written in `FullyKiosk.start`
(lines 64-70):
`str(settings["mqttBrokerUrl"]).replace("http://", "").split(":", maxsplit=1)`,
then element 0 is the broker ip and `int(element 1)` the port.  A
missing element 1 is an `IndexError`, a non-numeric port a `ValueError`.
Note the `replace` call erases every occurrence of `http://`, wherever
it appears in the URL. -/
def resolveBroker (brokerUrl : String) : Except PyErr (String × Int) :=
  match pySplitOnce (pyReplace brokerUrl "http://" "") ':' with
  | [h, p] =>
    match pyInt p with
    | some n => .ok (h, n)
    | none => .error .valueError
  | _ => .error .indexError

/-- The resolution step as claim C2 words it: strip a literal `http://`
PREFIX (if present), split the remainder on the first colon, and fail
with a `ConfigError` when the split does not yield exactly two segments
or the port segment does not parse as an integer.  This definition
follows the claim's words, for comparison with `resolveBroker` (the
code model); the two disagree when `http://` occurs other than as a
prefix. -/
def resolveBrokerClaim (brokerUrl : String) : Except PyErr (String × Int) :=
  match pySplitOnce (stripLeading brokerUrl "http://") ':' with
  | [h, p] =>
    match pyInt p with
    | some n => .ok (h, n)
    | none => .error .configError
  | _ => .error .configError

/-- The resolution semantics amended to what the code does: remove every
occurrence of the literal `http://` (not only a leading one), split on
the first colon, fail when the split does not yield two segments or the
port segment does not parse as an integer (the spec's `ConfigError`
standing for the raised `IndexError`/`ValueError`). -/
def resolveBrokerAmended (brokerUrl : String) : Except PyErr (String × Int) :=
  match pySplitOnce (pyReplace brokerUrl "http://" "") ':' with
  | [h, p] =>
    match pyInt p with
    | some n => .ok (h, n)
    | none => .error .configError
  | _ => .error .configError

/-! ## The reconnect loop of FullyKiosk.start (lines 76-87) -/

/-- Outcome of one awaited `self._start_mqtt_listener()` call as seen by
the `while True` loop: it raises `MqttError` (caught and logged), raises
some other exception (uncaught), or returns normally. -/
inductive Outcome where
  | mqttError
  | normal
  | otherError
deriving DecidableEq, Repr

/-- Observable events of the reconnect loop. -/
inductive Ev where
  | attempt
  | sleep (seconds : Nat)
  | exitRaised
deriving DecidableEq, Repr

/-- Trace of the `while True:` loop of `start` over a finite script of
attempt outcomes.  Every iteration runs one attempt and then the
`finally: await asyncio.sleep(reconnect_interval)` with
`reconnect_interval = 3`; an exception other than `MqttError` leaves the
loop (after the `finally` sleep) as `exitRaised`; a caught `MqttError`
or a normal return continues the loop.  An exhausted script means the
loop is still running: the loop body has no `break` or `return`, so no
normal exit event exists. -/
def startLoopTrace : List Outcome → List Ev
  | [] => []
  | o :: rest =>
    Ev.attempt :: Ev.sleep 3 ::
      (match o with
       | Outcome.otherError => [Ev.exitRaised]
       | _ => startLoopTrace rest)

/-- How a call to `FullyKiosk.start` ends: an exception, a normal
return, or entry into the unbounded listen loop (whose events over the
scripted attempt outcomes are recorded). -/
inductive StartBehavior where
  | raised (e : PyErr)
  | returned (st : ClientState)
  | loop (st : ClientState) (trace : List Ev)
deriving DecidableEq, Repr

/-- True exactly when `start` returned normally. -/
def isReturned : StartBehavior → Bool
  | .returned _ => true
  | _ => false

/-- The MQTT branch of `start` (lines 62-87): reads
`mqttDeviceInfoTopic`, resolves the broker URL, reads the remaining
broker settings, then enters the `while True` listen loop.  Every path
either raises or loops: the branch contains no `return` and falls into
the unbounded loop. -/
def startMqtt (st : ClientState) (settings : Doc) (script : List Outcome) :
    StartBehavior :=
  match pyLookup settings "mqttDeviceInfoTopic" with
  | none => .raised (.keyError "mqttDeviceInfoTopic")
  | some _ =>
    match pyLookup settings "mqttBrokerUrl" with
    | none => .raised (.keyError "mqttBrokerUrl")
    | some url =>
      match resolveBroker (pyStr url) with
      | .error e => .raised e
      | .ok _ =>
        match pyLookup settings "mqttBrokerPassword" with
        | none => .raised (.keyError "mqttBrokerPassword")
        | some _ =>
          match pyLookup settings "mqttClientId" with
          | none => .raised (.keyError "mqttClientId")
          | some _ =>
            match pyLookup settings "mqttEventTopic" with
            | none => .raised (.keyError "mqttEventTopic")
            | some _ =>
              match pyLookup settings "mqttBrokerUsername" with
              | none => .raised (.keyError "mqttBrokerUsername")
              | some _ => .loop st (startLoopTrace script)

/-- `FullyKiosk.start` (lines 52-87), with `dresp`/`sresp` the decoded
transport responses for the `deviceInfo` and `listSettings` commands and
`script` the outcomes of the successive `_start_mqtt_listener`
attempts: fetches and caches both documents, reads `deviceID` and
`mqttEnabled`, and when MQTT is enabled and wanted resolves the broker
parameters and enters the reconnect loop; otherwise falls off the end of
the function, a normal return. -/
def start (st : ClientState) (use_mqtt : Bool) (dresp sresp : Doc)
    (script : List Outcome) : StartBehavior :=
  match get_device_info st dresp with
  | .error e => .raised e
  | .ok (st1, device_info) =>
    match get_settings st1 sresp with
    | .error e => .raised e
    | .ok (st2, settings) =>
      match pyLookup device_info "deviceID" with
      | none => .raised (.keyError "deviceID")
      | some _ =>
        match pyLookup settings "mqttEnabled" with
        | none => .raised (.keyError "mqttEnabled")
        | some en =>
          if truthy en && use_mqtt then startMqtt st2 settings script
          else .returned st2

/-! ## MQTT session setup and teardown (_start_mqtt_listener, cancel_tasks) -/

/-- Topic `f"{self._app_id}/event/+/{self._device_id}"` (line 109). -/
def event_topic (appId devId : String) : String :=
  appId ++ "/event/+/" ++ devId

/-- Topic `f"{self._app_id}/deviceInfo/{self._device_id}"` (line 110). -/
def info_topic (appId devId : String) : String :=
  appId ++ "/deviceInfo/" ++ devId

/-- The ordered actions `_start_mqtt_listener` performs while setting up
a session (lines 94-139): `attachListener f` is entering the
`client.filtered_messages(f)` context and creating its
`handle_messages` task; `attachUnfiltered` the same for
`client.unfiltered_messages()`. -/
inductive SetupAct where
  | pushCancelCallback
  | connectBroker
  | attachListener (filter : String)
  | attachUnfiltered
  | subscribe (topic : String)
  | gatherTasks
deriving DecidableEq, BEq, Repr

/-- The setup actions of `_start_mqtt_listener` in program order: push
the `cancel_tasks` exit callback, enter the broker client context, enter
each `filtered_messages` context (the tuple `(event_topic, info_topic)`)
and start its listener task, start the unfiltered listener, then
subscribe to the event topic and the info topic, then gather. -/
def setupTrace (appId devId : String) : List SetupAct :=
  [SetupAct.pushCancelCallback,
   SetupAct.connectBroker,
   SetupAct.attachListener (event_topic appId devId),
   SetupAct.attachListener (info_topic appId devId),
   SetupAct.attachUnfiltered,
   SetupAct.subscribe (event_topic appId devId),
   SetupAct.subscribe (info_topic appId devId),
   SetupAct.gatherTasks]

/-- The cleanup steps that run when the `AsyncExitStack` of
`_start_mqtt_listener` unwinds. -/
inductive Cleanup where
  | exitMessages (filter : String)
  | exitUnfiltered
  | closeConnection
  | cancelTasks
deriving DecidableEq, BEq, Repr

/-- The unwind order of the session's `AsyncExitStack`: contexts and
callbacks run in reverse order of registration (LIFO), so the message
stream contexts exit first, then the broker client context closes the
connection, and the `cancel_tasks` callback — registered first, at line
98 — runs last. -/
def teardownTrace (appId devId : String) : List Cleanup :=
  [Cleanup.exitUnfiltered,
   Cleanup.exitMessages (info_topic appId devId),
   Cleanup.exitMessages (event_topic appId devId),
   Cleanup.closeConnection,
   Cleanup.cancelTasks]

/-- Whether some occurrence of `a` is followed, later in the list, by an
occurrence of `b`. -/
def precedesB {α : Type} [BEq α] (a b : α) : List α → Bool
  | [] => false
  | x :: rest => (x == a && rest.contains b) || precedesB a b rest

/-- A listener task as `cancel_tasks` finds it: already done, pending
and raising `CancelledError` once cancelled and awaited, or pending and
raising some other exception when awaited. -/
inductive TaskState where
  | done
  | cancels
  | failsWith (e : PyErr)
deriving DecidableEq, Repr

/-- A task that will not raise a non-cancellation exception. -/
def cleanTask : TaskState → Bool
  | .failsWith _ => false
  | _ => true

/-- What `cancel_tasks` did with one task. -/
inductive CancelEv where
  | skipped
  | cancelled
deriving DecidableEq, Repr

/-- The event `cancel_tasks` produces for a task that does not raise. -/
def cancelEv : TaskState → CancelEv
  | .done => .skipped
  | _ => .cancelled

/-- `FullyKiosk.cancel_tasks` (lines 161-170): for each task in order,
skip it when already done, otherwise request cancellation and await its
completion, swallowing the expected `asyncio.CancelledError`; any other
exception propagates out of `cancel_tasks` at once (the remaining tasks
are left unprocessed).  Returns the task states afterwards (every
processed task has completed) together with what was done per task. -/
def cancel_tasks : List TaskState → Except PyErr (List TaskState × List CancelEv)
  | [] => .ok ([], [])
  | TaskState.done :: rest =>
    match cancel_tasks rest with
    | .error e => .error e
    | .ok (ts, evs) => .ok (TaskState.done :: ts, CancelEv.skipped :: evs)
  | TaskState.cancels :: rest =>
    match cancel_tasks rest with
    | .error e => .error e
    | .ok (ts, evs) => .ok (TaskState.done :: ts, CancelEv.cancelled :: evs)
  | TaskState.failsWith e :: _ => .error e

/-! ## The message dispatcher (handle_messages, lines 141-159) -/

/-- An MQTT payload as delivered to `handle_messages`: either bytes that
decode to a JSON document (modelled by the decoded document itself) or a
malformed payload on which `json.loads` raises. -/
inductive Payload where
  | valid (d : Doc)
  | malformed
deriving DecidableEq, Repr

/-- Python `json.loads` on a payload: the decoded document, or a raised
`JSONDecodeError` for a malformed payload. -/
def json_loads : Payload → Except PyErr Doc
  | .valid d => .ok d
  | .malformed => .error .jsonDecodeError

/-- One incoming MQTT message, together with the behaviour of the
user-supplied callback on it (`cbRaises = some e` means
`await self._callback_func(event_type)` raises `e`). -/
structure MqttMessage where
  topic : String
  payload : Payload
  cbRaises : Option PyErr
deriving DecidableEq, Repr

/-- One iteration of the `async for` body of
`FullyKiosk.handle_messages` (lines 143-159): decode the payload with
`json.loads`, split the topic on `/`, read segment 1 as the message
type; type `deviceInfo` replaces the cached `_device_info` with the
payload, type `event` takes the event name from segment 2, any other
type is the event name itself; finally, when a callback is set, await
it.  Any raised exception (decode failure, missing segment, callback
failure) propagates out of the body. -/
def handle_message (has_cb : Bool) (device_info : Option Doc)
    (msg : MqttMessage) : Except PyErr (Option Doc × String) :=
  match json_loads msg.payload with
  | .error e => .error e
  | .ok payload =>
    match (pySplit msg.topic '/')[1]? with
    | none => .error .indexError
    | some mtype =>
      let step : Except PyErr (Option Doc × String) :=
        if mtype = "deviceInfo" then .ok (some payload, mtype)
        else if mtype = "event" then
          match (pySplit msg.topic '/')[2]? with
          | none => .error .indexError
          | some ev => .ok (device_info, ev)
        else .ok (device_info, mtype)
      match step with
      | .error e => .error e
      | .ok (di, ev) =>
        if has_cb then
          match msg.cbRaises with
          | some e => .error e
          | none => .ok (di, ev)
        else .ok (di, ev)

/-- The `async for` loop of `FullyKiosk.handle_messages` over a finite
prefix of the message stream: messages are processed in order,
accumulating the event names dispatched to the callback; an exception
raised by the body propagates and terminates the listener task, leaving
the remaining messages unprocessed. -/
def handle_messages (has_cb : Bool) (device_info : Option Doc) :
    List MqttMessage → Except PyErr (Option Doc × List String)
  | [] => .ok (device_info, [])
  | m :: rest =>
    match handle_message has_cb device_info m with
    | .error e => .error e
    | .ok (di, ev) =>
      match handle_messages has_cb di rest with
      | .error e => .error e
      | .ok (df, evs) => .ok (df, ev :: evs)

/-! ## Claims -/

/-- C1: for every command invocation whose transport round trip
succeeded and whose decoded response document carries a `status` field
equal to the literal error marker `"Error"` (and the human-readable
`statustext` field it reports), `sendCommand` fails with a
`FullyKioskError` carrying that status and that message, regardless of
which command was sent. -/
theorem claim1_error_status_raises (cmd : String) (data : Doc) (t : JVal)
    (hs : pyLookup data RESPONSE_STATUS = some (JVal.str RESPONSE_ERRORSTATUS))
    (ht : pyLookup data RESPONSE_STATUSTEXT = some t) :
    sendCommand cmd data =
      .error (.fkError (JVal.str RESPONSE_ERRORSTATUS) t) := by
  unfold sendCommand
  rw [hs, ht]
  simp

/-- Witness for C1 at a concrete error document and command. -/
theorem claim1_error_status_raises_witness :
    sendCommand "screenOn"
      [("status", JVal.str "Error"), ("statustext", JVal.str "oops")] =
      .error (.fkError (JVal.str "Error") (JVal.str "oops")) :=
  claim1_error_status_raises "screenOn"
    [("status", JVal.str "Error"), ("statustext", JVal.str "oops")]
    (JVal.str "oops") (by decide) (by decide)

/-- C2 counterexample: on the URL `"10.0.0.5:http://1883"` the code
succeeds with host `10.0.0.5` and port `1883` — the `replace` call
erases `http://` everywhere, not only as a prefix — while the claim's
prefix-strip reading leaves the port segment `"http://1883"`, which
does not parse as an integer, so the claim demands a `ConfigError`. -/
theorem claim2_counterexample :
    resolveBroker "10.0.0.5:http://1883" = .ok ("10.0.0.5", 1883) ∧
    resolveBrokerClaim "10.0.0.5:http://1883" = .error PyErr.configError ∧
    resolveBroker "10.0.0.5:http://1883" ≠
      resolveBrokerClaim "10.0.0.5:http://1883" := by
  refine ⟨by decide, by decide, by decide⟩

/-- C2 amended: broker resolution removes every occurrence of the
literal `http://` from the settings broker URL (not only a leading
prefix), splits the result on the first colon into host and port, and
fails exactly when the split does not yield two segments or the port
segment does not parse as an integer (the raised
`IndexError`/`ValueError` being what the spec calls `ConfigError`); in
particular `"http://10.0.0.5:1883"` yields host `10.0.0.5` and port
`1883`, and `"10.0.0.5"` (no port) fails. -/
theorem claim2_amended_resolution :
    (∀ url, resOk (resolveBroker url) = resOk (resolveBrokerAmended url)) ∧
    resolveBroker "http://10.0.0.5:1883" = .ok ("10.0.0.5", 1883) ∧
    resolveBroker "10.0.0.5" = .error PyErr.indexError := by
  refine ⟨fun url => ?_, by decide, by decide⟩
  unfold resolveBroker resolveBrokerAmended
  cases h : pySplitOnce (pyReplace url "http://" "") ':' with
  | nil => rfl
  | cons a l =>
    cases l with
    | nil => rfl
    | cons b l2 =>
      cases l2 with
      | nil => cases hp : pyInt b <;> simp [hp, resOk]
      | cons c l3 => rfl

/-- C3: a successful `deviceInfo` fetch caches the fetched document in
`_device_info`; when the reported `ip4` differs from the transport's
configured host, the host is repointed at the reported IP and every
subsequent request URL is built from the new host, and when it is equal
the host is left unchanged. -/
theorem claim3_ip4_rebind (st : ClientState) (resp : Doc) (ip : String)
    (hok : sendCommand "deviceInfo" resp = .ok resp)
    (hip : pyLookup resp "ip4" = some (JVal.str ip)) :
    (st.host ≠ JVal.str ip →
      get_device_info st resp =
        .ok ({ st with device_info := some resp, host := JVal.str ip }, resp) ∧
      requestUrl { st with device_info := some resp, host := JVal.str ip } =
        "http://" ++ ip ++ ":" ++ toString st.port) ∧
    (st.host = JVal.str ip →
      get_device_info st resp = .ok ({ st with device_info := some resp }, resp)) := by
  constructor
  · intro hne
    refine ⟨?_, rfl⟩
    simp [get_device_info, hok, hip, hne]
  · intro heq
    simp [get_device_info, hok, hip, heq]

/-- Witness for C3 at a concrete state whose host differs from the
reported `ip4`. -/
theorem claim3_ip4_rebind_witness :
    get_device_info ⟨JVal.str "10.0.0.1", 2323, none, none⟩
        [("ip4", JVal.str "10.0.0.2")] =
      .ok (⟨JVal.str "10.0.0.2", 2323, some [("ip4", JVal.str "10.0.0.2")], none⟩,
        [("ip4", JVal.str "10.0.0.2")]) ∧
    requestUrl ⟨JVal.str "10.0.0.2", 2323, some [("ip4", JVal.str "10.0.0.2")], none⟩ =
      "http://" ++ "10.0.0.2" ++ ":" ++ toString (2323 : Int) :=
  (claim3_ip4_rebind ⟨JVal.str "10.0.0.1", 2323, none, none⟩
    [("ip4", JVal.str "10.0.0.2")] "10.0.0.2" (by decide) (by decide)).1 (by decide)

/-- C4: within every MQTT session, any broker subscribe call issued for
a topic in the setup trace of `_start_mqtt_listener` is strictly
preceded by the registration of the listener for that exact topic
filter and by the registration of the catch-all listener for unmatched
messages. -/
theorem claim4_listeners_before_subscribe (appId devId : String) (i : Nat)
    (t : String)
    (h : (setupTrace appId devId)[i]? = some (SetupAct.subscribe t)) :
    (∃ j, j < i ∧
      (setupTrace appId devId)[j]? = some (SetupAct.attachListener t)) ∧
    (∃ k, k < i ∧ (setupTrace appId devId)[k]? = some SetupAct.attachUnfiltered) := by
  revert h
  match i with
  | 0 | 1 | 2 | 3 | 4 | 7 => intro h; simp [setupTrace] at h
  | 5 =>
    intro h
    simp only [setupTrace, List.getElem?_cons_succ, List.getElem?_cons_zero,
      Option.some.injEq, SetupAct.subscribe.injEq] at h
    exact ⟨⟨2, by omega, by simp [setupTrace, h]⟩,
           ⟨4, by omega, by simp [setupTrace]⟩⟩
  | 6 =>
    intro h
    simp only [setupTrace, List.getElem?_cons_succ, List.getElem?_cons_zero,
      Option.some.injEq, SetupAct.subscribe.injEq] at h
    exact ⟨⟨3, by omega, by simp [setupTrace, h]⟩,
           ⟨4, by omega, by simp [setupTrace]⟩⟩
  | n + 8 =>
    intro h
    rw [List.getElem?_eq_none (by simp [setupTrace])] at h
    cases h

/-- Witness for C4 at the concrete session of device `ABC123` under the
fixed app namespace `fully`, at the subscribe call for the event topic. -/
theorem claim4_listeners_before_subscribe_witness :
    (∃ j, j < 5 ∧ (setupTrace "fully" "ABC123")[j]? =
      some (SetupAct.attachListener (event_topic "fully" "ABC123"))) ∧
    (∃ k, k < 5 ∧ (setupTrace "fully" "ABC123")[k]? =
      some SetupAct.attachUnfiltered) :=
  claim4_listeners_before_subscribe "fully" "ABC123" 5
    (event_topic "fully" "ABC123") (by decide)

/-- C5: after transport-level broker failures the reconnect loop of
`start` sleeps the fixed 3 time units and re-attempts, unboundedly: a
script of n+1 consecutive `MqttError` outcomes produces exactly n+1
attempts, each followed by `sleep 3`, and the trace contains no exit
event — the loop never terminates on its own; only an explicit stop,
which ends the script externally, ends it. -/
theorem claim5_reconnect_forever (n : Nat) :
    startLoopTrace (List.replicate (n + 1) Outcome.mqttError) =
      (List.replicate (n + 1) [Ev.attempt, Ev.sleep 3]).flatten ∧
    Ev.exitRaised ∉ startLoopTrace (List.replicate (n + 1) Outcome.mqttError) := by
  induction n with
  | zero => exact ⟨rfl, by decide⟩
  | succ m ih =>
    have hstep : startLoopTrace (List.replicate (m + 2) Outcome.mqttError) =
        Ev.attempt :: Ev.sleep 3 ::
          startLoopTrace (List.replicate (m + 1) Outcome.mqttError) := rfl
    constructor
    · rw [hstep, ih.1]
      rfl
    · rw [hstep]
      intro hmem
      simp only [List.mem_cons] at hmem
      rcases hmem with h1 | h1 | h1
      · exact absurd h1 (by decide)
      · exact absurd h1 (by decide)
      · exact ih.2 h1

/-- Witness for C5: the trace of two consecutive broker failures. -/
theorem claim5_reconnect_forever_witness :
    startLoopTrace (List.replicate 2 Outcome.mqttError) =
      (List.replicate 2 [Ev.attempt, Ev.sleep 3]).flatten ∧
    Ev.exitRaised ∉ startLoopTrace (List.replicate 2 Outcome.mqttError) :=
  claim5_reconnect_forever 1

/-- Helper for C6: `cancel_tasks` on tasks that raise nothing but the
expected cancellation signal completes every pending task and reports
one event per task. -/
theorem cancel_tasks_clean (ts : List TaskState)
    (h : ts.all cleanTask = true) :
    cancel_tasks ts =
      .ok (List.replicate ts.length TaskState.done, ts.map cancelEv) := by
  induction ts with
  | nil => rfl
  | cons t rest ih =>
    simp only [List.all_cons, Bool.and_eq_true] at h
    cases t with
    | done => simp [cancel_tasks, ih h.2, List.replicate_succ, cancelEv]
    | cancels => simp [cancel_tasks, ih h.2, List.replicate_succ, cancelEv]
    | failsWith e => simp [cleanTask] at h

/-- Helper for C6: a second `cancel_tasks` call, with every task already
done, skips every task and changes nothing. -/
theorem cancel_tasks_done_noop (n : Nat) :
    cancel_tasks (List.replicate n TaskState.done) =
      .ok (List.replicate n TaskState.done,
        List.replicate n CancelEv.skipped) := by
  induction n with
  | zero => rfl
  | succ m ih => simp [List.replicate_succ, cancel_tasks, ih]

/-- Helper for C6: a task that raises anything other than the expected
cancellation signal propagates that exception out of `cancel_tasks`. -/
theorem cancel_tasks_propagates (pre post : List TaskState) (e : PyErr)
    (h : pre.all cleanTask = true) :
    cancel_tasks (pre ++ TaskState.failsWith e :: post) = .error e := by
  induction pre with
  | nil => rfl
  | cons t rest ih =>
    simp only [List.all_cons, Bool.and_eq_true] at h
    cases t with
    | done => simp [cancel_tasks, ih h.2]
    | cancels => simp [cancel_tasks, ih h.2]
    | failsWith e2 => simp [cleanTask] at h

/-- C6 counterexample: in the LIFO unwind of the session's
`AsyncExitStack` the broker connection closes strictly before the
`cancel_tasks` callback (pushed first, hence run last) cancels and
awaits the listener tasks, so the claim's "the broker connection is
closed only after all listener tasks have completed" fails on the
teardown of the session for device `ABC123` under app namespace
`fully`. -/
theorem claim6_counterexample :
    precedesB Cleanup.cancelTasks Cleanup.closeConnection
      (teardownTrace "fully" "ABC123") = false ∧
    precedesB Cleanup.closeConnection Cleanup.cancelTasks
      (teardownTrace "fully" "ABC123") = true :=
  ⟨by decide, by decide⟩

/-- C6 amended: explicit stop requests cancellation of every
outstanding listener task and awaits each one's completion, swallowing
the expected cancellation signal but propagating any other failure
(leaving the remaining tasks unprocessed); stop returns only after
every processed task has completed, and a second call is a safe no-op
(every task is already done and is skipped).  However, the broker
connection is closed BEFORE the listener tasks are cancelled and
awaited, not after: the exit stack unwinds in reverse registration
order and `cancel_tasks` was registered first. -/
theorem claim6_amended_stop (ts pre post : List TaskState) (e : PyErr)
    (appId devId : String)
    (hts : ts.all cleanTask = true) (hpre : pre.all cleanTask = true) :
    cancel_tasks ts =
      .ok (List.replicate ts.length TaskState.done, ts.map cancelEv) ∧
    cancel_tasks (List.replicate ts.length TaskState.done) =
      .ok (List.replicate ts.length TaskState.done,
        List.replicate ts.length CancelEv.skipped) ∧
    cancel_tasks (pre ++ TaskState.failsWith e :: post) = .error e ∧
    precedesB Cleanup.closeConnection Cleanup.cancelTasks
      (teardownTrace appId devId) = true :=
  ⟨cancel_tasks_clean ts hts, cancel_tasks_done_noop ts.length,
   cancel_tasks_propagates pre post e hpre, rfl⟩

/-- Witness for C6 at a concrete task set: one finished task, one
pending task that cancels cleanly, and a separate run with a failing
task. -/
theorem claim6_amended_stop_witness :
    cancel_tasks [TaskState.done, TaskState.cancels] =
      .ok ([TaskState.done, TaskState.done],
        [CancelEv.skipped, CancelEv.cancelled]) ∧
    cancel_tasks (List.replicate 2 TaskState.done) =
      .ok (List.replicate 2 TaskState.done, List.replicate 2 CancelEv.skipped) ∧
    cancel_tasks ([TaskState.cancels] ++ TaskState.failsWith PyErr.valueError :: []) =
      .error PyErr.valueError ∧
    precedesB Cleanup.closeConnection Cleanup.cancelTasks
      (teardownTrace "fully" "ABC123") = true :=
  claim6_amended_stop [TaskState.done, TaskState.cancels] [TaskState.cancels] []
    PyErr.valueError "fully" "ABC123" (by decide) (by decide)

/-- C7: for every dispatched message the topic is split on `/` and
segment 1 names the message type: type `deviceInfo` replaces the cached
device-info document with the parsed payload and emits the event name
`deviceInfo`; type `event` emits the topic's segment 2 as the event
name and leaves the cache unchanged; any other type is emitted verbatim
with the cache unchanged. -/
theorem claim7_dispatch_by_topic (st : Option Doc) (topic : String) (d : Doc) :
    ((pySplit topic '/')[1]? = some "deviceInfo" →
      handle_message false st ⟨topic, Payload.valid d, none⟩ =
        .ok (some d, "deviceInfo")) ∧
    (∀ ev, (pySplit topic '/')[1]? = some "event" →
      (pySplit topic '/')[2]? = some ev →
      handle_message false st ⟨topic, Payload.valid d, none⟩ = .ok (st, ev)) ∧
    (∀ t, (pySplit topic '/')[1]? = some t → t ≠ "deviceInfo" → t ≠ "event" →
      handle_message false st ⟨topic, Payload.valid d, none⟩ = .ok (st, t)) := by
  refine ⟨?_, ?_, ?_⟩
  · intro h1
    simp [handle_message, json_loads, h1]
  · intro ev h1 h2
    simp [handle_message, json_loads, h1, h2]
  · intro t h1 hd he
    simp [handle_message, json_loads, h1, hd, he]

/-- Witness for C7: the spec's own example `fully/event/screenOn/ABC123`
dispatches `screenOn` without altering the cached device-info, and a
`fully/deviceInfo/ABC123` message replaces the cache. -/
theorem claim7_dispatch_by_topic_witness :
    handle_message false (some [("old", JVal.null)])
      ⟨"fully/event/screenOn/ABC123", Payload.valid [("v", JVal.int 1)], none⟩ =
      .ok (some [("old", JVal.null)], "screenOn") ∧
    handle_message false (some [("old", JVal.null)])
      ⟨"fully/deviceInfo/ABC123", Payload.valid [("v", JVal.int 1)], none⟩ =
      .ok (some [("v", JVal.int 1)], "deviceInfo") :=
  ⟨(claim7_dispatch_by_topic (some [("old", JVal.null)])
      "fully/event/screenOn/ABC123" [("v", JVal.int 1)]).2.1 "screenOn"
      (by decide) (by decide),
   (claim7_dispatch_by_topic (some [("old", JVal.null)])
      "fully/deviceInfo/ABC123" [("v", JVal.int 1)]).1 (by decide)⟩

/-- C8 (the code, against the claim): per-message errors DO terminate
the listener task.  A malformed payload makes the unguarded `json.loads`
raise, and a raising callback propagates into the listener loop; in
both runs below the second, well-formed message is never processed. -/
theorem claim8_errors_kill_listener :
    handle_messages false (some [("k", JVal.str "v")])
      [⟨"fully/event/screenOn/ABC123", Payload.malformed, none⟩,
       ⟨"fully/event/screenOff/ABC123", Payload.valid [], none⟩] =
      .error PyErr.jsonDecodeError ∧
    handle_messages true none
      [⟨"fully/event/screenOn/ABC123", Payload.valid [], some PyErr.valueError⟩,
       ⟨"fully/event/screenOff/ABC123", Payload.valid [], none⟩] =
      .error PyErr.valueError :=
  ⟨by decide, by decide⟩

/-- Helper for C9: the MQTT branch of `start` never returns normally —
every path raises or enters the listen loop. -/
theorem startMqtt_not_returned (st : ClientState) (settings : Doc)
    (script : List Outcome) :
    isReturned (startMqtt st settings script) = false := by
  unfold startMqtt
  repeat' split
  all_goals rfl

/-- Helper for C9: the reconnect loop's trace has no exit event unless
some attempt raises an exception other than `MqttError`. -/
theorem startLoopTrace_no_exit (s : List Outcome)
    (h : s.all (fun o => o != Outcome.otherError) = true) :
    Ev.exitRaised ∉ startLoopTrace s := by
  induction s with
  | nil => simp [startLoopTrace]
  | cons o srest ih =>
    simp only [List.all_cons, Bool.and_eq_true, bne_iff_ne, ne_eq] at h
    cases o with
    | otherError => exact absurd rfl h.1
    | mqttError =>
      intro hmem
      simp only [startLoopTrace, List.mem_cons] at hmem
      rcases hmem with h1 | h1 | h1
      · exact absurd h1 (by decide)
      · exact absurd h1 (by decide)
      · exact ih (by simpa using h.2) h1
    | normal =>
      intro hmem
      simp only [startLoopTrace, List.mem_cons] at hmem
      rcases hmem with h1 | h1 | h1
      · exact absurd h1 (by decide)
      · exact absurd h1 (by decide)
      · exact ih (by simpa using h.2) h1

/-- C9: when the fetched settings report MQTT enabled and the client was
constructed to use MQTT, `start` never returns normally: every path
raises or enters the `while True` listen loop; even a normal completion
of a listening attempt is followed by the fixed `sleep 3` and another
attempt, and the loop exits only when an exception other than
`MqttError` occurs. -/
theorem claim9_start_never_returns (st : ClientState) (use_mqtt : Bool)
    (dresp sresp : Doc) (script rest : List Outcome) (en : JVal)
    (hok : sendCommand "listSettings" sresp = .ok sresp)
    (hen : pyLookup sresp "mqttEnabled" = some en)
    (htr : truthy en = true) (hu : use_mqtt = true) :
    isReturned (start st use_mqtt dresp sresp script) = false ∧
    startLoopTrace (Outcome.normal :: rest) =
      Ev.attempt :: Ev.sleep 3 :: startLoopTrace rest ∧
    (rest.all (fun o => o != Outcome.otherError) = true →
      Ev.exitRaised ∉ startLoopTrace rest) := by
  refine ⟨?_, rfl, startLoopTrace_no_exit rest⟩
  cases hd : get_device_info st dresp with
  | error e => simp [start, hd, isReturned]
  | ok p =>
    obtain ⟨st1, dinfo⟩ := p
    have hs : get_settings st1 sresp =
        .ok ({ st1 with settings := some sresp }, sresp) := by
      simp [get_settings, hok]
    cases hdid : pyLookup dinfo "deviceID" with
    | none => simp [start, hd, hs, hdid, isReturned]
    | some x =>
      simp [start, hd, hs, hdid, hen, htr, hu, startMqtt_not_returned]

/-- Witness for C9 at a concrete client, settings document with MQTT
enabled, and a one-failure script. -/
theorem claim9_start_never_returns_witness :
    isReturned (start ⟨JVal.str "1.2.3.4", 2323, none, none⟩ true
      [("deviceID", JVal.str "d1"), ("ip4", JVal.str "1.2.3.4")]
      [("mqttEnabled", JVal.bool true), ("mqttDeviceInfoTopic", JVal.str "t"),
       ("mqttBrokerUrl", JVal.str "http://10.0.0.5:1883"),
       ("mqttBrokerPassword", JVal.str "p"), ("mqttClientId", JVal.str "c"),
       ("mqttEventTopic", JVal.str "e"), ("mqttBrokerUsername", JVal.str "u")]
      [Outcome.mqttError]) = false ∧
    startLoopTrace (Outcome.normal :: [Outcome.mqttError]) =
      Ev.attempt :: Ev.sleep 3 :: startLoopTrace [Outcome.mqttError] ∧
    Ev.exitRaised ∉ startLoopTrace [Outcome.mqttError] :=
  have h := claim9_start_never_returns ⟨JVal.str "1.2.3.4", 2323, none, none⟩
    true
    [("deviceID", JVal.str "d1"), ("ip4", JVal.str "1.2.3.4")]
    [("mqttEnabled", JVal.bool true), ("mqttDeviceInfoTopic", JVal.str "t"),
     ("mqttBrokerUrl", JVal.str "http://10.0.0.5:1883"),
     ("mqttBrokerPassword", JVal.str "p"), ("mqttClientId", JVal.str "c"),
     ("mqttEventTopic", JVal.str "e"), ("mqttBrokerUsername", JVal.str "u")]
    [Outcome.mqttError] [Outcome.mqttError] (JVal.bool true)
    (by decide) (by decide) (by decide) rfl
  ⟨h.1, h.2.1, h.2.2 (by decide)⟩

/-- C10: the dispatcher indexes topic segments without a guard — for a
message with a well-formed payload, a topic that splits on `/` into
fewer than two segments fails with an out-of-bounds `IndexError`, and a
topic whose segment 1 is the literal `event` but which has fewer than
three segments also fails with `IndexError`, instead of emitting an
event. -/
theorem claim10_short_topic_index_error (has_cb : Bool) (st : Option Doc)
    (topic : String) (d : Doc) (cb : Option PyErr) :
    ((pySplit topic '/').length < 2 →
      handle_message has_cb st ⟨topic, Payload.valid d, cb⟩ =
        .error PyErr.indexError) ∧
    ((pySplit topic '/')[1]? = some "event" → (pySplit topic '/').length < 3 →
      handle_message has_cb st ⟨topic, Payload.valid d, cb⟩ =
        .error PyErr.indexError) := by
  constructor
  · intro hlen
    have h1 : (pySplit topic '/')[1]? = none :=
      List.getElem?_eq_none (by omega)
    simp [handle_message, json_loads, h1]
  · intro h1 hlen
    have h2 : (pySplit topic '/')[2]? = none :=
      List.getElem?_eq_none (by omega)
    simp [handle_message, json_loads, h1, h2]

/-- Witness for C10: a bare one-segment topic and a two-segment `event`
topic both raise. -/
theorem claim10_short_topic_index_error_witness :
    handle_message false none ⟨"fully", Payload.valid [], none⟩ =
      .error PyErr.indexError ∧
    handle_message false none ⟨"fully/event", Payload.valid [], none⟩ =
      .error PyErr.indexError :=
  ⟨(claim10_short_topic_index_error false none "fully" [] none).1 (by decide),
   (claim10_short_topic_index_error false none "fully/event" [] none).2
     (by decide) (by decide)⟩
